import Mathlib

/-! Step pipeline of the control plane: status-check step, metrics collector, uninstall stage.

A shallow embedding of three pieces of the repository:

* `components/kyma-environment-broker/internal/process/update/check_step.go`
  (`CheckStep.Run`, `CheckStep.checkRuntimeStatus`);
* `components/kyma-environment-broker/internal/metrics/operation_result.go`
  (`OperationResultCollector` and its event handlers, `mapResult`);
* the deprovisioning stage `TriggerKymaUninstallStep`, of which only the test
  `trigger_kyma_uninstall_test.go` is at hand.

Conventions of the embedding.

* A Go function returning `(a, b, error)` returns a record whose `err` field is an
  `Option`: `none` is Go's `nil` error.
* Collaborators reached through an interface or a pointer (provisioner client,
  operation manager, Gardener client, installation service) are fields of the step:
  functions from the arguments of the call to what the call returns.  Every run of a
  step calls each collaborator at most once, so a function of the arguments stands for
  the collaborator in the world the run starts in.  Each run also returns the list of
  collaborator calls it made, in order.
* `time.Duration` is a count of nanoseconds (`Int`, an `int64` in Go); an instant is a
  count of nanoseconds too.  `Time.Sub` saturates at the ends of the `int64` range as
  Go's does.
* Logger calls return nothing and change nothing that the steps read; they are left out.
-/

namespace KEB

/-! ## Time -/

/-- Go's `time.Duration`: nanoseconds, an `int64`. -/
abbrev Duration := Int

/-- Largest value of `time.Duration` (`1<<63 - 1`). -/
def maxDuration : Duration := 2 ^ 63 - 1

/-- Smallest value of `time.Duration` (`-1 << 63`). -/
def minDuration : Duration := -(2 ^ 63)

/-- Go's `time.Second`. -/
def Second : Duration := 1000000000

/-- Go's `time.Minute`. -/
def Minute : Duration := 60 * Second

/-- An instant (`time.Time`), as nanoseconds since a fixed origin. -/
structure Time where
  nanos : Int
  deriving DecidableEq, Repr

/-- Go's `Time.Sub`: the duration `t - u`, or the largest (smallest) duration when the
difference does not fit an `int64`. -/
def Time.Sub (t u : Time) : Duration :=
  let d := t.nanos - u.nanos
  if d < minDuration then minDuration
  else if maxDuration < d then maxDuration
  else d

/-- What a run reads from its surroundings: the clock (`time.Now`) and the standard
library's rendering of a duration (`Duration.String`, used by `%s`). -/
structure Runtime where
  now : Time
  durationString : Duration → String

/-- Go's `time.Since(t)`: `time.Now().Sub(t)`. -/
def Runtime.Since (rt : Runtime) (t : Time) : Duration :=
  rt.now.Sub t

/-! ## The operation record (`internal.Operation`) -/

/-- Go's `domain.LastOperationState` (a string type of the broker API library). -/
abbrev LastOperationState := String

/-- The library constant `domain.InProgress`. -/
def InProgress : LastOperationState := "in progress"

/-- The library constant `domain.Succeeded`. -/
def Succeeded : LastOperationState := "succeeded"

/-- The library constant `domain.Failed`. -/
def Failed : LastOperationState := "failed"

/-- The constant `Pending` of `operation_result.go`. -/
def Pending : LastOperationState := "pending"

/-- The constant `Canceling` of `operation_result.go`. -/
def Canceling : LastOperationState := "canceling"

/-- The constant `Canceled` of `operation_result.go`. -/
def Canceled : LastOperationState := "canceled"

/-- The constant `Retrying` of `operation_result.go`. -/
def Retrying : LastOperationState := "retrying"

/-- Modelled from the spec: `internal.OperationType`, whose declaration is not among the
sources; the spec's data model lists "Type (enum: Provision, Deprovision, Update,
UpgradeKyma, UpgradeCluster)". -/
inductive OperationType
  | Provision
  | Deprovision
  | Update
  | UpgradeKyma
  | UpgradeCluster
  deriving DecidableEq, Repr

/-- Modelled from the spec: the type of `Operation.LastError`, whose declaration is not
among the sources: a "structured error with Component and Reason" whose accessors
"return empty values if the error was never classified". -/
structure LastError where
  message : String
  reason : String
  component : String
  deriving DecidableEq, Repr

/-- The accessor `LastError.Component()`. -/
def LastError.Component (e : LastError) : String := e.component

/-- The accessor `LastError.Reason()`. -/
def LastError.Reason (e : LastError) : String := e.reason

/-- The part of `internal.ERSContext` the sources read. -/
structure ERSContext where
  GlobalAccountID : String
  deriving DecidableEq, Repr

/-- The part of `internal.ProvisioningParameters` the sources read. -/
structure ProvisioningParameters where
  PlanID : String
  ErsContext : ERSContext
  deriving DecidableEq, Repr

/-- The fields of `internal.Operation` the sources read or the spec's data model names. -/
structure Operation where
  ID : String
  InstanceID : String
  Type_ : OperationType
  State : LastOperationState
  UpdatedAt : Time
  ProvisionerOperationID : String
  RuntimeID : String
  LastError : LastError
  ProvisioningParameters : ProvisioningParameters
  deriving DecidableEq, Repr

/-! ## Errors and collaborators of the status-check step -/

/-- A Go `error` value of the step pipeline, known by its message (`Error()`). -/
structure GoError where
  message : String
  deriving DecidableEq, Repr

/-- Go's `gqlschema.OperationState` (a string type of the provisioner's schema). -/
abbrev OperationState := String

/-- Modelled from the spec: the schema constant `gqlschema.OperationStatePending`; the
schema package is not among the sources. -/
def OperationStatePending : OperationState := "Pending"

/-- Modelled from the spec: the schema constant `gqlschema.OperationStateInProgress`. -/
def OperationStateInProgress : OperationState := "InProgress"

/-- Modelled from the spec: the schema constant `gqlschema.OperationStateSucceeded`. -/
def OperationStateSucceeded : OperationState := "Succeeded"

/-- Modelled from the spec: the schema constant `gqlschema.OperationStateFailed`. -/
def OperationStateFailed : OperationState := "Failed"

/-- The method `OperationState.String()`. -/
def OperationState.String (e : OperationState) : String := e

/-- The fields of `gqlschema.OperationStatus` the step reads; `Message` is a `*string`. -/
structure OperationStatus where
  State : OperationState
  Message : Option String
  deriving DecidableEq, Repr

/-- What a step returns: `(internal.Operation, time.Duration, error)`. -/
structure StepResult where
  operation : Operation
  delay : Duration
  err : Option GoError
  deriving DecidableEq, Repr

/-- The method of `provisioner.Client` the step calls; it returns
`(gqlschema.OperationStatus, error)`. -/
structure ProvisionerClient where
  RuntimeOperationStatus : String → String → OperationStatus × Option GoError

/-- The method of `process.OperationManager` the step calls:
`OperationFailed(operation, description, err, log)`. -/
structure OperationManager where
  OperationFailed : Operation → String → Option GoError → StepResult

/-- A call a run makes to one of its collaborators, with the arguments passed. -/
inductive Call
  | RuntimeOperationStatus (accountID operationID : String)
  | OperationFailed (operation : Operation) (description : String) (err : Option GoError)
  deriving DecidableEq, Repr

/-- A run's result together with the collaborator calls it made, in order. -/
structure Outcome where
  result : StepResult
  calls : List Call
  deriving DecidableEq, Repr

/-- Whether a call is one to the provisioner client. -/
def Call.isProvisionerCall : Call → Bool
  | .RuntimeOperationStatus _ _ => true
  | .OperationFailed _ _ _ => false

/-- Whether a call is one to the operation manager. -/
def Call.isManagerCall : Call → Bool
  | .RuntimeOperationStatus _ _ => false
  | .OperationFailed _ _ _ => true

/-- The `LastError` of an operation that never failed: nothing stamped. -/
def LastError.empty : LastError := { message := "", reason := "", component := "" }

/-- Modelled from the spec: the contract of `OperationManager.OperationFailed`, whose
code (package `process`) is not among the sources: it "sets State=Failed, stamps
`LastError` (classified), persists, returns a zero delay and the (possibly
non-recoverable-wrapped) error".  The stamp is taken to leave a non-empty `LastError`
whenever the description passed is not the empty string. -/
def OperationManager.FailedContract (om : OperationManager) : Prop :=
  ∀ (operation : Operation) (description : String) (err : Option GoError),
    (om.OperationFailed operation description err).operation.State = Failed ∧
    (description ≠ "" →
      (om.OperationFailed operation description err).operation.LastError ≠ LastError.empty) ∧
    (om.OperationFailed operation description err).delay = 0 ∧
    (om.OperationFailed operation description err).err ≠ none

/-- Modelled from the spec: an operation manager that does what the spec says of
`OperationFailed`: the operation gets `State=Failed` and a `LastError` with the
description, the delay is zero and the returned error carries the description (and the
cause's message after it when a cause is passed). -/
def specOperationManager : OperationManager where
  OperationFailed operation description err :=
    let msg := match err with
      | none => description
      | some cause => description ++ ": " ++ cause.message
    { operation := { operation with
        State := Failed
        LastError := { message := description, reason := "", component := "" } }
      delay := 0
      err := some { message := msg } }

/-! ## `check_step.go` -/

/-- The step `CheckStep` ("checks if the SKR is updated"). -/
structure CheckStep where
  provisionerClient : ProvisionerClient
  operationManager : OperationManager
  provisioningTimeout : Duration

/-- The method `CheckStep.Name`. -/
def CheckStep.Name (_s : CheckStep) : String := "Check_Runtime"

/-- A return through `s.operationManager.OperationFailed(operation, description, nil, log)`
after the calls `before`. -/
def CheckStep.fail (s : CheckStep) (before : List Call) (operation : Operation)
    (description : String) : Outcome :=
  { result := s.operationManager.OperationFailed operation description none
    calls := before ++ [Call.OperationFailed operation description none] }

/-- The method `CheckStep.checkRuntimeStatus`. -/
def CheckStep.checkRuntimeStatus (s : CheckStep) (rt : Runtime) (operation : Operation) :
    Outcome :=
  if rt.Since operation.UpdatedAt > s.provisioningTimeout then
    s.fail [] operation
      ("operation has reached the time limit: " ++ rt.durationString s.provisioningTimeout)
  else if operation.ProvisionerOperationID = "" then
    s.fail [] operation "Operation does not contain Provisioner Operation ID"
  else
    let call := Call.RuntimeOperationStatus
      operation.ProvisioningParameters.ErsContext.GlobalAccountID operation.ProvisionerOperationID
    let (status, err) := s.provisionerClient.RuntimeOperationStatus
      operation.ProvisioningParameters.ErsContext.GlobalAccountID operation.ProvisionerOperationID
    match err with
    | some _ => { result := { operation := operation, delay := 1 * Minute, err := none }
                  calls := [call] }
    | none =>
      let msg : String := match status.Message with
        | some m => m
        | none => ""
      if status.State = OperationStateSucceeded then
        { result := { operation := operation, delay := 0, err := none }, calls := [call] }
      else if status.State = OperationStateInProgress then
        { result := { operation := operation, delay := Minute, err := none }, calls := [call] }
      else if status.State = OperationStatePending then
        { result := { operation := operation, delay := Minute, err := none }, calls := [call] }
      else if status.State = OperationStateFailed then
        s.fail [call] operation ("provisioner client returns failed status: " ++ msg)
      else
        s.fail [call] operation
          ("unsupported provisioner client status: " ++ status.State.String)

/-- The method `CheckStep.Run`. -/
def CheckStep.Run (s : CheckStep) (rt : Runtime) (operation : Operation) : Outcome :=
  if operation.RuntimeID = "" then
    s.fail [] operation "Runtime ID is empty"
  else
    s.checkRuntimeStatus rt operation

/-! ## `operation_result.go`: the metrics collector -/

/-- The constant `resultFailed` (a `float64` in Go; the eight result constants are the
whole numbers 0 to 7 and are kept as such). -/
def resultFailed : Nat := 0

/-- The constant `resultSucceeded`. -/
def resultSucceeded : Nat := 1

/-- The constant `resultInProgress`. -/
def resultInProgress : Nat := 2

/-- The constant `resultPending`. -/
def resultPending : Nat := 3

/-- The constant `resultCanceling`. -/
def resultCanceling : Nat := 4

/-- The constant `resultCanceled`. -/
def resultCanceled : Nat := 5

/-- The constant `resultRetrying`. -/
def resultRetrying : Nat := 6

/-- The constant `resultUnimplemented`. -/
def resultUnimplemented : Nat := 7

/-- The record `process.StepProcessed` carried by step events; its declaration is not
among the sources and the handlers only copy it, so the step's name stands for it. -/
structure StepProcessed where
  StepName : String
  deriving DecidableEq, Repr

/-- Go's `internal.ProvisioningOperation`: it embeds `Operation`. -/
structure ProvisioningOperation where
  Operation : Operation
  deriving DecidableEq, Repr

/-- Go's `internal.DeprovisioningOperation`: it embeds `Operation`. -/
structure DeprovisioningOperation where
  Operation : Operation
  deriving DecidableEq, Repr

/-- Go's `internal.UpgradeKymaOperation`: it embeds `Operation`. -/
structure UpgradeKymaOperation where
  Operation : Operation
  deriving DecidableEq, Repr

/-- Go's `internal.UpgradeClusterOperation`: it embeds `Operation`. -/
structure UpgradeClusterOperation where
  Operation : Operation
  deriving DecidableEq, Repr

/-- Go's `process.UpgradeKymaStepProcessed`. -/
structure UpgradeKymaStepProcessed where
  StepProcessed : StepProcessed
  Operation : UpgradeKymaOperation
  deriving DecidableEq, Repr

/-- Go's `process.UpgradeClusterStepProcessed`. -/
structure UpgradeClusterStepProcessed where
  StepProcessed : StepProcessed
  Operation : UpgradeClusterOperation
  deriving DecidableEq, Repr

/-- Go's `process.OperationStepProcessed`. -/
structure OperationStepProcessed where
  StepProcessed : StepProcessed
  Operation : Operation
  deriving DecidableEq, Repr

/-- Go's `process.ProvisioningStepProcessed`. -/
structure ProvisioningStepProcessed where
  StepProcessed : StepProcessed
  Operation : ProvisioningOperation
  deriving DecidableEq, Repr

/-- Go's `process.DeprovisioningStepProcessed`. -/
structure DeprovisioningStepProcessed where
  StepProcessed : StepProcessed
  Operation : DeprovisioningOperation
  deriving DecidableEq, Repr

/-- Go's `process.ProvisioningSucceeded`. -/
structure ProvisioningSucceeded where
  Operation : ProvisioningOperation
  deriving DecidableEq, Repr

/-- Go's `process.OperationSucceeded`. -/
structure OperationSucceeded where
  Operation : Operation
  deriving DecidableEq, Repr

/-- The payload `ev interface{}` of a handler, by its dynamic type: one variant for each
event type a handler asserts, and `other` for a value of any other type (`nil` too),
known by a description. -/
inductive Event
  | upgradeKymaStepProcessed (e : UpgradeKymaStepProcessed)
  | upgradeClusterStepProcessed (e : UpgradeClusterStepProcessed)
  | operationStepProcessed (e : OperationStepProcessed)
  | provisioningStepProcessed (e : ProvisioningStepProcessed)
  | deprovisioningStepProcessed (e : DeprovisioningStepProcessed)
  | provisioningSucceeded (e : ProvisioningSucceeded)
  | operationSucceeded (e : OperationSucceeded)
  | other (description : String)
  deriving DecidableEq, Repr

/-- An argument passed to `fmt.Errorf`. -/
inductive FmtArg
  | payload (ev : Event)
  | operationType (t : OperationType)
  deriving DecidableEq, Repr

/-- The error `fmt.Errorf(format, args...)` builds, kept as the format and the arguments
(the text `%+v` renders is the standard library's business). -/
structure FormatError where
  format : String
  args : List FmtArg
  deriving DecidableEq, Repr

/-- A `prometheus.GaugeVec`: for each list of label values, the value of the series with
these labels, or `none` while the series does not exist. -/
abbrev GaugeVec := List String → Option Nat

/-- The chain `g.WithLabelValues(lvs...).Set(v)`: the series labelled `lvs` is created if
need be and set to `v`. -/
def GaugeVec.WithLabelValuesSet (g : GaugeVec) (lvs : List String) (v : Nat) : GaugeVec :=
  fun l => if l = lvs then some v else g l

/-- The gauges of `OperationResultCollector`. -/
structure OperationResultCollector where
  provisioningResultGauge : GaugeVec
  deprovisioningResultGauge : GaugeVec
  upgradeKymaResultGauge : GaugeVec
  upgradeClusterResultGauge : GaugeVec

/-- What a handler returns (`none` is the `nil` error) and the collector it leaves. -/
abbrev Handled := Option FormatError × OperationResultCollector

/-- The constructor `NewOperationResultCollector`: four gauges without a series. -/
def NewOperationResultCollector : OperationResultCollector :=
  { provisioningResultGauge := fun _ => none
    deprovisioningResultGauge := fun _ => none
    upgradeKymaResultGauge := fun _ => none
    upgradeClusterResultGauge := fun _ => none }

/-- The method `mapResult`. -/
def OperationResultCollector.mapResult (_c : OperationResultCollector)
    (state : LastOperationState) : Nat :=
  if state = InProgress then resultInProgress
  else if state = Succeeded then resultSucceeded
  else if state = Failed then resultFailed
  else if state = Pending then resultPending
  else if state = Canceling then resultCanceling
  else if state = Canceled then resultCanceled
  else if state = Retrying then resultRetrying
  else resultUnimplemented

/-- The handler `OnUpgradeKymaStepProcessed`. -/
def OperationResultCollector.OnUpgradeKymaStepProcessed (c : OperationResultCollector)
    (ev : Event) : Handled :=
  match ev with
  | .upgradeKymaStepProcessed stepProcessed =>
    let resultValue := c.mapResult stepProcessed.Operation.Operation.State
    let op := stepProcessed.Operation
    let pp := op.Operation.ProvisioningParameters
    let gauge := c.upgradeKymaResultGauge.WithLabelValuesSet
      [op.Operation.ID, op.Operation.InstanceID, pp.ErsContext.GlobalAccountID, pp.PlanID]
      resultValue
    (none, { c with upgradeKymaResultGauge := gauge })
  | _ => (some { format := "expected UpgradeKymaStepProcessed but got %+v"
                 args := [FmtArg.payload ev] }, c)

/-- The handler `OnUpgradeClusterStepProcessed`. -/
def OperationResultCollector.OnUpgradeClusterStepProcessed (c : OperationResultCollector)
    (ev : Event) : Handled :=
  match ev with
  | .upgradeClusterStepProcessed stepProcessed =>
    let resultValue := c.mapResult stepProcessed.Operation.Operation.State
    let op := stepProcessed.Operation
    let pp := op.Operation.ProvisioningParameters
    let gauge := c.upgradeClusterResultGauge.WithLabelValuesSet
      [op.Operation.ID, op.Operation.InstanceID, pp.ErsContext.GlobalAccountID, pp.PlanID]
      resultValue
    (none, { c with upgradeClusterResultGauge := gauge })
  | _ => (some { format := "expected UpgradeClusterStepProcessed but got %+v"
                 args := [FmtArg.payload ev] }, c)

/-- The handler `OnProvisioningSucceeded`. -/
def OperationResultCollector.OnProvisioningSucceeded (c : OperationResultCollector)
    (ev : Event) : Handled :=
  match ev with
  | .provisioningSucceeded provisioningSucceeded =>
    let op := provisioningSucceeded.Operation
    let pp := op.Operation.ProvisioningParameters
    let gauge := c.provisioningResultGauge.WithLabelValuesSet
      [op.Operation.ID, op.Operation.InstanceID, pp.ErsContext.GlobalAccountID, pp.PlanID, "", ""]
      resultSucceeded
    (none, { c with provisioningResultGauge := gauge })
  | _ => (some { format := "expected ProvisioningSucceeded but got %+v"
                 args := [FmtArg.payload ev] }, c)

/-- The handler `OnProvisioningStepProcessed`. -/
def OperationResultCollector.OnProvisioningStepProcessed (c : OperationResultCollector)
    (ev : Event) : Handled :=
  match ev with
  | .provisioningStepProcessed stepProcessed =>
    let resultValue := c.mapResult stepProcessed.Operation.Operation.State
    let op := stepProcessed.Operation
    let pp := op.Operation.ProvisioningParameters
    let err := op.Operation.LastError
    let gauge := c.provisioningResultGauge.WithLabelValuesSet
      [op.Operation.ID, op.Operation.InstanceID, pp.ErsContext.GlobalAccountID, pp.PlanID,
        err.Component, err.Reason]
      resultValue
    (none, { c with provisioningResultGauge := gauge })
  | _ => (some { format := "expected ProvisioningStepProcessed but got %+v"
                 args := [FmtArg.payload ev] }, c)

/-- The handler `OnDeprovisioningStepProcessed`. -/
def OperationResultCollector.OnDeprovisioningStepProcessed (c : OperationResultCollector)
    (ev : Event) : Handled :=
  match ev with
  | .deprovisioningStepProcessed stepProcessed =>
    let resultValue := c.mapResult stepProcessed.Operation.Operation.State
    let op := stepProcessed.Operation
    let pp := op.Operation.ProvisioningParameters
    let err := op.Operation.LastError
    let gauge := c.deprovisioningResultGauge.WithLabelValuesSet
      [op.Operation.ID, op.Operation.InstanceID, pp.ErsContext.GlobalAccountID, pp.PlanID,
        err.Component, err.Reason]
      resultValue
    (none, { c with deprovisioningResultGauge := gauge })
  | _ => (some { format := "expected DeprovisioningStepProcessed but got %+v"
                 args := [FmtArg.payload ev] }, c)

/-- The handler `OnOperationStepProcessed`. -/
def OperationResultCollector.OnOperationStepProcessed (c : OperationResultCollector)
    (ev : Event) : Handled :=
  match ev with
  | .operationStepProcessed e =>
    match e.Operation.Type_ with
    | .Provision =>
      c.OnProvisioningStepProcessed (Event.provisioningStepProcessed
        { StepProcessed := e.StepProcessed, Operation := { Operation := e.Operation } })
    | .Deprovision =>
      c.OnDeprovisioningStepProcessed (Event.deprovisioningStepProcessed
        { StepProcessed := e.StepProcessed, Operation := { Operation := e.Operation } })
    | _ => (some { format := "expected OperationStep of types [%s, %s] but got %+v"
                   args := [FmtArg.operationType OperationType.Provision,
                     FmtArg.operationType OperationType.Deprovision,
                     FmtArg.operationType e.Operation.Type_] }, c)
  | _ => (some { format := "expected OperationStepProcessed but got %+v"
                 args := [FmtArg.payload ev] }, c)

/-- The handler `OnOperationSucceeded`. -/
def OperationResultCollector.OnOperationSucceeded (c : OperationResultCollector)
    (ev : Event) : Handled :=
  match ev with
  | .operationSucceeded operationSucceeded =>
    if operationSucceeded.Operation.Type_ = OperationType.Provision then
      let provisioningOperation : ProvisioningSucceeded :=
        { Operation := { Operation := operationSucceeded.Operation } }
      let (err, c1) := c.OnProvisioningSucceeded (Event.provisioningSucceeded provisioningOperation)
      match err with
      | some e => (some e, c1)
      | none => (none, c1)
    else
      (some { format := "expected OperationStep of type %s but got %+v"
              args := [FmtArg.operationType OperationType.Provision,
                FmtArg.operationType operationSucceeded.Operation.Type_] }, c)
  | _ => (some { format := "expected OperationSucceeded but got %+v"
                 args := [FmtArg.payload ev] }, c)

end KEB

namespace Provisioner

/-! ## The deprovisioning stage `TriggerKymaUninstallStep`

Only the stage's test is among the sources.  The types below are the ones the test names;
the stage itself is modelled from the spec and from what the test expects of it. -/

/-- Go's `model.OperationStage` (a string type). -/
abbrev OperationStage := String

/-- The part of `model.GardenerConfig` the test sets. -/
structure GardenerConfig where
  Name : String
  deriving DecidableEq, Repr

/-- The part of `model.Cluster` the test sets; `Kubeconfig` is a `*string`. -/
structure Cluster where
  ClusterConfig : GardenerConfig
  Kubeconfig : Option String
  deriving DecidableEq, Repr

/-- Go's `model.Operation`; the stage ignores it and the test passes the zero value. -/
structure Operation where
  ID : String
  deriving DecidableEq, Repr

/-- Go's `operations.StageResult`. -/
structure StageResult where
  Stage : OperationStage
  Delay : KEB.Duration
  deriving DecidableEq, Repr

/-- The components of `apperrors.ErrComponent` the test names. -/
inductive ErrComponent
  | ErrGardenerClient
  | ErrClusterK8SClient
  | ErrKymaInstaller
  deriving DecidableEq, Repr

/-- The reasons of `apperrors.ErrReason` the test names: the empty reason and
`ErrTriggerKymaUninstall`. -/
inductive ErrReason
  | empty
  | ErrTriggerKymaUninstall
  deriving DecidableEq, Repr

/-- Modelled from the spec: an error of the stage, a classified error ("an error value
annotated with Component ... and Reason") that may be wrapped in
`operations.NonRecoverableError` ("a marker that propagates through wrapping") or in a
layer of context added by a collaborator. -/
inductive StageError
  | appError (component : ErrComponent) (reason : ErrReason) (message : String)
  | NonRecoverableError (inner : StageError)
  | wrapped (context : String) (inner : StageError)
  deriving DecidableEq, Repr

/-- Modelled from the spec: `errors.As(err, &NonRecoverableError)`, which "must unwrap
arbitrarily nested wrapping layers". -/
def StageError.isNonRecoverable : StageError → Bool
  | .appError _ _ _ => false
  | .NonRecoverableError _ => true
  | .wrapped _ inner => inner.isNonRecoverable

/-- Modelled from the spec: the component `operations.ConvertToAppError(err).Component()`
reports, read through the wrapping. -/
def StageError.Component : StageError → ErrComponent
  | .appError component _ _ => component
  | .NonRecoverableError inner => inner.Component
  | .wrapped _ inner => inner.Component

/-- Modelled from the spec: the reason `operations.ConvertToAppError(err).Reason()`
reports, read through the wrapping. -/
def StageError.Reason : StageError → ErrReason
  | .appError _ reason _ => reason
  | .NonRecoverableError inner => inner.Reason
  | .wrapped _ inner => inner.Reason

/-- Modelled from the spec: the text of `err.Error()`, read through the wrapping. -/
def StageError.Error : StageError → String
  | .appError _ _ message => message
  | .NonRecoverableError inner => inner.Error
  | .wrapped context inner => context ++ ": " ++ inner.Error

/-- What the stage reads of the shoot the Gardener client returns. -/
structure Shoot where
  Name : String
  IsHibernated : Bool
  deriving DecidableEq, Repr

/-- A parsed kubeconfig (`*rest.Config`), known by the text it came from. -/
structure RestConfig where
  raw : String
  deriving DecidableEq, Repr

/-- A call the stage makes to one of its collaborators. -/
inductive Call
  | GardenerGet (name : String)
  | TriggerUninstall (config : RestConfig)
  deriving DecidableEq, Repr

/-- The stage with what `NewTriggerKymaUninstallStep` receives (Gardener client,
installation service, next stage, time limit, delay) and the kubeconfig parser it uses.
`Get` and the parser return a value or the message of an error; `TriggerUninstall`
returns the message of an error or nothing. -/
structure TriggerKymaUninstallStep where
  gardenerClientGet : String → Except String Shoot
  installationClientTriggerUninstall : RestConfig → Option String
  parseToK8sConfig : String → Except String RestConfig
  nextStep : OperationStage
  timeLimit : KEB.Duration
  delay : KEB.Duration

/-- What a run of the stage returns, `(operations.StageResult, error)`, and the calls it
made. -/
structure Outcome where
  result : StageResult
  err : Option StageError
  calls : List Call
  deriving DecidableEq, Repr

/-- Modelled from the spec: `TriggerKymaUninstallStep.Run`, whose code is not among the
sources.  "A step resolving a target with no configured remote resource (e.g., empty
kubeconfig-equivalent) always short-circuits directly to the next stage with zero delay
and makes no external calls"; "an external call failure ... is classified recoverable
(not marked non-recoverable) while a configuration-parsing failure in the same step is
classified non-recoverable".  The order of the calls and the components, reasons and
messages of the errors are the ones the test expects: the shoot is fetched first, a
hibernated shoot goes to the next stage, then the kubeconfig is parsed and the uninstall
triggered. -/
def TriggerKymaUninstallStep.Run (s : TriggerKymaUninstallStep) (cluster : Cluster)
    (_operation : Operation) : Outcome :=
  match cluster.Kubeconfig with
  | none => { result := { Stage := s.nextStep, Delay := 0 }, err := none, calls := [] }
  | some kubeconfig =>
    match s.gardenerClientGet cluster.ClusterConfig.Name with
    | .error msg =>
      { result := { Stage := "", Delay := 0 }
        err := some (StageError.appError ErrComponent.ErrGardenerClient ErrReason.empty msg)
        calls := [Call.GardenerGet cluster.ClusterConfig.Name] }
    | .ok shoot =>
      if shoot.IsHibernated then
        { result := { Stage := s.nextStep, Delay := 0 }, err := none
          calls := [Call.GardenerGet cluster.ClusterConfig.Name] }
      else
        match s.parseToK8sConfig kubeconfig with
        | .error msg =>
          { result := { Stage := "", Delay := 0 }
            err := some (StageError.NonRecoverableError
              (StageError.appError ErrComponent.ErrClusterK8SClient ErrReason.empty
                ("error: failed to create kubernetes config from raw: " ++ msg)))
            calls := [Call.GardenerGet cluster.ClusterConfig.Name] }
        | .ok k8sConfig =>
          match s.installationClientTriggerUninstall k8sConfig with
          | some msg =>
            { result := { Stage := "", Delay := 0 }
              err := some (StageError.appError ErrComponent.ErrKymaInstaller
                ErrReason.ErrTriggerKymaUninstall msg)
              calls := [Call.GardenerGet cluster.ClusterConfig.Name,
                Call.TriggerUninstall k8sConfig] }
          | none =>
            { result := { Stage := s.nextStep, Delay := 0 }, err := none
              calls := [Call.GardenerGet cluster.ClusterConfig.Name,
                Call.TriggerUninstall k8sConfig] }

end Provisioner

namespace KEB

/-! ## Concrete inputs used to instantiate the theorems -/

/-- An operation of an update in progress, last persisted at instant `1000`. -/
def sampleOperation : Operation :=
  { ID := "op-1", InstanceID := "inst-1", Type_ := OperationType.Update, State := InProgress
    UpdatedAt := { nanos := 1000 }, ProvisionerOperationID := "prov-op-1", RuntimeID := "rt-1"
    LastError := LastError.empty
    ProvisioningParameters := { PlanID := "plan-1", ErsContext := { GlobalAccountID := "ga-1" } } }

/-- A clock one second after `sampleOperation` was persisted; the rendering of a duration
is a placeholder. -/
def sampleRuntime : Runtime :=
  { now := { nanos := 1000 + 1000000000 }, durationString := fun _ => "1h0m0s" }

/-- A clock two hours after `sampleOperation` was persisted. -/
def lateRuntime : Runtime :=
  { now := { nanos := 1000 + 7200 * 1000000000 }, durationString := fun _ => "1h0m0s" }

/-- The states of the operation state machine, in the order the spec lists them:
"Pending/InProgress/Succeeded/Failed/Canceling/Canceled/Retrying". -/
def stateMachineStates : List LastOperationState :=
  [Pending, InProgress, Succeeded, Failed, Canceling, Canceled, Retrying]

/-- A step with a one-hour timeout whose provisioner always answers with `status`. -/
def stepAnswering (status : OperationStatus) (err : Option GoError) : CheckStep :=
  { provisionerClient := { RuntimeOperationStatus := fun _ _ => (status, err) }
    operationManager := specOperationManager
    provisioningTimeout := 3600 * Second }

end KEB

namespace Provisioner

/-- The stage of the test: `NewTriggerKymaUninstallStep(gardenerClient, installationSvc,
nextStageName, 10*time.Minute, delay)` with collaborators that answer as the test case
"should go to the next step when unistall was trigerred successfully" sets them, and a
parser that accepts every text but `invalid`. -/
def sampleStep : TriggerKymaUninstallStep :=
  { gardenerClientGet := fun name => .ok { Name := name, IsHibernated := false }
    installationClientTriggerUninstall := fun _ => none
    parseToK8sConfig := fun raw =>
      if raw = "invalid" then .error "error constructing kubeconfig from raw config: "
      else .ok { raw := raw }
    nextStep := "NextStage"
    timeLimit := 10 * KEB.Minute
    delay := 1 * KEB.Second }

/-- The test's `clusterWithoutKubeconfig`. -/
def clusterWithoutKubeconfig : Cluster :=
  { ClusterConfig := { Name := "my cluster" }, Kubeconfig := none }

/-- The test's `clusterWithKubeconfig`; the first line of the test's kubeconfig stands for
the whole text. -/
def clusterWithKubeconfig : Cluster :=
  { ClusterConfig := { Name := "my cluster" }, Kubeconfig := some "apiVersion: v1" }

/-- The test's `clusterWithInvalidKubeconfig`. -/
def clusterWithInvalidKubeconfig : Cluster :=
  { ClusterConfig := { Name := "my cluster" }, Kubeconfig := some "invalid" }

/-- The stage of the test case "should return error if failed to get shoot": the Gardener
client's `Get` fails with "some error". -/
def stepFailingGet : TriggerKymaUninstallStep :=
  { sampleStep with gardenerClientGet := fun _ => .error "some error" }

end Provisioner

/-! # Theorems -/

namespace KEB

/-! ## Helper lemmas -/

/-- The operation manager modelled from the spec meets the contract of `OperationFailed`. -/
theorem specOperationManager_contract : specOperationManager.FailedContract := by
  intro operation description err
  refine ⟨rfl, ?_, rfl, ?_⟩
  · intro hd hl
    apply hd
    have h := congrArg LastError.message hl
    simpa [specOperationManager, LastError.empty] using h
  · simp [specOperationManager]

/-- A text with a non-empty prefix is not the empty string. -/
theorem append_ne_empty (p m : String) (hp : p ≠ "") : p ++ m ≠ "" := by
  intro h
  apply hp
  have h1 := congrArg String.data h
  rw [String.data_append] at h1
  have h2 : p.data = [] := (List.append_eq_nil.mp h1).1
  exact String.ext h2

/-- While the timeout is below the largest duration, an elapsed time above the timeout,
taken as a difference of instants, is also above it as the duration `time.Since` returns. -/
theorem Runtime.Since_gt_of_elapsed_gt (rt : Runtime) (t : Time) (timeout : Duration)
    (hT : timeout < maxDuration) (h : timeout < rt.now.nanos - t.nanos) :
    timeout < rt.Since t := by
  unfold Runtime.Since Time.Sub
  simp only
  split_ifs with h1 h2
  · exact lt_trans h h1
  · exact hT
  · exact h

/-- For a timeout that is a value of `time.Duration`, an elapsed time within the timeout,
taken as a difference of instants, is also within it as the duration `time.Since` returns. -/
theorem Runtime.Since_le_of_elapsed_le (rt : Runtime) (t : Time) (timeout : Duration)
    (hT : minDuration ≤ timeout) (h : rt.now.nanos - t.nanos ≤ timeout) :
    rt.Since t ≤ timeout := by
  unfold Runtime.Since Time.Sub
  simp only
  split_ifs with h1 h2
  · exact hT
  · exact le_trans (le_of_lt h2) h
  · exact h

/-! ## The status-check step -/

/-- C1: an operation whose `RuntimeID` is the empty string, whatever its other fields, the
clock and the collaborators: `CheckStep.Run` returns exactly what
`OperationManager.OperationFailed` returns for the message "Runtime ID is empty" and a
nil cause; that call is the only call the run makes, so the provisioner client's
`RuntimeOperationStatus` is not called. -/
theorem CheckStep.Run_empty_runtime_id (s : CheckStep) (rt : Runtime) (operation : Operation)
    (h : operation.RuntimeID = "") :
    (s.Run rt operation).result
      = s.operationManager.OperationFailed operation "Runtime ID is empty" none ∧
    (s.Run rt operation).calls = [Call.OperationFailed operation "Runtime ID is empty" none] ∧
    (∀ accountID operationID,
      Call.RuntimeOperationStatus accountID operationID ∉ (s.Run rt operation).calls) := by
  simp [CheckStep.Run, CheckStep.fail, h]

/-- C1 at a concrete input: `sampleOperation` without its runtime ID, two hours old. -/
theorem CheckStep.Run_empty_runtime_id_witness :
    ({ sampleOperation with RuntimeID := "" } : Operation).RuntimeID = "" ∧
    ((stepAnswering { State := OperationStateSucceeded, Message := none } none).Run lateRuntime
        { sampleOperation with RuntimeID := "" }).result
      = specOperationManager.OperationFailed { sampleOperation with RuntimeID := "" }
          "Runtime ID is empty" none :=
  ⟨rfl, (CheckStep.Run_empty_runtime_id
    (stepAnswering { State := OperationStateSucceeded, Message := none } none) lateRuntime
    { sampleOperation with RuntimeID := "" } rfl).1⟩

/-- C2: whatever the operation and the timeout `T`, if the time elapsed since
`operation.UpdatedAt` (the duration `time.Since` returns) exceeds `T` when `CheckStep.Run`
is entered, the run returns what `OperationManager.OperationFailed` returns for some
description and a nil cause, and that call is the only call it makes: the provisioner
client is not called.  With an operation manager that meets the contract of
`OperationFailed`, the result has `State = Failed`, a zero delay and a non-nil error, so it
is never a retry (a positive delay with a nil error). -/
theorem CheckStep.Run_timed_out (s : CheckStep) (rt : Runtime) (operation : Operation)
    (hom : s.operationManager.FailedContract)
    (h : rt.Since operation.UpdatedAt > s.provisioningTimeout) :
    (∃ description,
      (s.Run rt operation).result
        = s.operationManager.OperationFailed operation description none ∧
      (s.Run rt operation).calls = [Call.OperationFailed operation description none]) ∧
    (s.Run rt operation).result.operation.State = Failed ∧
    (s.Run rt operation).result.delay = 0 ∧
    (s.Run rt operation).result.err ≠ none ∧
    ¬ (0 < (s.Run rt operation).result.delay ∧ (s.Run rt operation).result.err = none) ∧
    (∀ accountID operationID,
      Call.RuntimeOperationStatus accountID operationID ∉ (s.Run rt operation).calls) := by
  have key : ∃ description,
      (s.Run rt operation).result
        = s.operationManager.OperationFailed operation description none ∧
      (s.Run rt operation).calls = [Call.OperationFailed operation description none] := by
    by_cases hr : operation.RuntimeID = ""
    · exact ⟨"Runtime ID is empty", by simp [CheckStep.Run, CheckStep.fail, hr]⟩
    · exact ⟨"operation has reached the time limit: "
          ++ rt.durationString s.provisioningTimeout,
        by simp [CheckStep.Run, CheckStep.checkRuntimeStatus, CheckStep.fail, hr, h]⟩
  obtain ⟨description, hres, hcalls⟩ := key
  obtain ⟨hstate, _, hdelay, herr⟩ := hom operation description none
  refine ⟨⟨description, hres, hcalls⟩, ?_, ?_, ?_, ?_, ?_⟩
  · rw [hres]; exact hstate
  · rw [hres]; exact hdelay
  · rw [hres]; exact herr
  · rw [hres]; intro hc; exact herr hc.2
  · intro accountID operationID
    rw [hcalls]
    simp

/-- C2 at a concrete input: `sampleOperation` read two hours after it was persisted by a
step with a one-hour timeout. -/
theorem CheckStep.Run_timed_out_witness :
    lateRuntime.Since sampleOperation.UpdatedAt
      > (stepAnswering { State := OperationStateSucceeded, Message := none } none).provisioningTimeout ∧
    ((stepAnswering { State := OperationStateSucceeded, Message := none } none).Run lateRuntime
      sampleOperation).result.operation.State = Failed ∧
    ((stepAnswering { State := OperationStateSucceeded, Message := none } none).Run lateRuntime
      sampleOperation).result.delay = 0 :=
  ⟨by decide,
    (CheckStep.Run_timed_out
      (stepAnswering { State := OperationStateSucceeded, Message := none } none) lateRuntime
      sampleOperation specOperationManager_contract (by decide)).2.1,
    (CheckStep.Run_timed_out
      (stepAnswering { State := OperationStateSucceeded, Message := none } none) lateRuntime
      sampleOperation specOperationManager_contract (by decide)).2.2.1⟩

/-- C3: an operation with a runtime ID and a provisioner operation ID that has not timed
out, and a provisioner whose status call succeeds with state `InProgress`:
`CheckStep.Run` returns the operation it was given, a delay of one minute and a nil error;
its only call is the status call, so the operation manager is not invoked. -/
theorem CheckStep.Run_in_progress (s : CheckStep) (rt : Runtime) (operation : Operation)
    (status : OperationStatus)
    (hr : operation.RuntimeID ≠ "") (hp : operation.ProvisionerOperationID ≠ "")
    (ht : rt.Since operation.UpdatedAt ≤ s.provisioningTimeout)
    (hc : s.provisionerClient.RuntimeOperationStatus
        operation.ProvisioningParameters.ErsContext.GlobalAccountID
        operation.ProvisionerOperationID = (status, none))
    (hs : status.State = OperationStateInProgress) :
    (s.Run rt operation).result = { operation := operation, delay := Minute, err := none } ∧
    Minute = 60 * 1000000000 ∧
    (s.Run rt operation).calls = [Call.RuntimeOperationStatus
      operation.ProvisioningParameters.ErsContext.GlobalAccountID
      operation.ProvisionerOperationID] ∧
    (∀ op description err,
      Call.OperationFailed op description err ∉ (s.Run rt operation).calls) := by
  have ht2 : ¬ (s.provisioningTimeout < rt.Since operation.UpdatedAt) := not_lt.mpr ht
  have hne : OperationStateInProgress ≠ OperationStateSucceeded := by decide
  simp [CheckStep.Run, CheckStep.checkRuntimeStatus, hr, hp, ht2, hc, hs, hne]
  rfl

/-- C3 at a concrete input: `sampleOperation` one second after it was persisted and a
provisioner that reports `InProgress`. -/
theorem CheckStep.Run_in_progress_witness :
    sampleOperation.RuntimeID ≠ "" ∧ sampleOperation.ProvisionerOperationID ≠ "" ∧
    ((stepAnswering { State := OperationStateInProgress, Message := none } none).Run
      sampleRuntime sampleOperation).result
      = { operation := sampleOperation, delay := 60000000000, err := none } :=
  ⟨by decide, by decide,
    (CheckStep.Run_in_progress
      (stepAnswering { State := OperationStateInProgress, Message := none } none)
      sampleRuntime sampleOperation { State := OperationStateInProgress, Message := none }
      (by decide) (by decide) (by decide) rfl rfl).1⟩

/-- C4: an operation with a runtime ID and a provisioner operation ID that has not timed
out, and a provisioner whose status call succeeds with state `Succeeded`:
`CheckStep.Run` returns the operation it was given, a zero delay and a nil error (the
signal to advance); its only call is the status call, so the operation manager is not
invoked. -/
theorem CheckStep.Run_succeeded (s : CheckStep) (rt : Runtime) (operation : Operation)
    (status : OperationStatus)
    (hr : operation.RuntimeID ≠ "") (hp : operation.ProvisionerOperationID ≠ "")
    (ht : rt.Since operation.UpdatedAt ≤ s.provisioningTimeout)
    (hc : s.provisionerClient.RuntimeOperationStatus
        operation.ProvisioningParameters.ErsContext.GlobalAccountID
        operation.ProvisionerOperationID = (status, none))
    (hs : status.State = OperationStateSucceeded) :
    (s.Run rt operation).result = { operation := operation, delay := 0, err := none } ∧
    (s.Run rt operation).calls = [Call.RuntimeOperationStatus
      operation.ProvisioningParameters.ErsContext.GlobalAccountID
      operation.ProvisionerOperationID] ∧
    (∀ op description err,
      Call.OperationFailed op description err ∉ (s.Run rt operation).calls) := by
  have ht2 : ¬ (s.provisioningTimeout < rt.Since operation.UpdatedAt) := not_lt.mpr ht
  simp [CheckStep.Run, CheckStep.checkRuntimeStatus, hr, hp, ht2, hc, hs]

/-- C4 at a concrete input: `sampleOperation` one second after it was persisted and a
provisioner that reports `Succeeded`. -/
theorem CheckStep.Run_succeeded_witness :
    sampleOperation.RuntimeID ≠ "" ∧ sampleOperation.ProvisionerOperationID ≠ "" ∧
    ((stepAnswering { State := OperationStateSucceeded, Message := none } none).Run
      sampleRuntime sampleOperation).result
      = { operation := sampleOperation, delay := 0, err := none } :=
  ⟨by decide, by decide,
    (CheckStep.Run_succeeded
      (stepAnswering { State := OperationStateSucceeded, Message := none } none)
      sampleRuntime sampleOperation { State := OperationStateSucceeded, Message := none }
      (by decide) (by decide) (by decide) rfl rfl).1⟩

/-- C5: an operation that passes the entry checks (runtime ID and provisioner operation ID
present, not timed out) and a provisioner whose status call succeeds with state `Failed`
and message `m` (`m` is the empty string when the status carries no message):
`CheckStep.Run` returns what `OperationManager.OperationFailed` returns for the
description "provisioner client returns failed status: " followed by `m`, which contains
`m`, and a nil cause.  With an operation manager that meets the contract of
`OperationFailed`, the result has `State = Failed`, a non-empty `LastError`, a zero delay
and a non-nil error. -/
theorem CheckStep.Run_failed (s : CheckStep) (rt : Runtime) (operation : Operation)
    (status : OperationStatus) (m : String)
    (hom : s.operationManager.FailedContract)
    (hr : operation.RuntimeID ≠ "") (hp : operation.ProvisionerOperationID ≠ "")
    (ht : rt.Since operation.UpdatedAt ≤ s.provisioningTimeout)
    (hc : s.provisionerClient.RuntimeOperationStatus
        operation.ProvisioningParameters.ErsContext.GlobalAccountID
        operation.ProvisionerOperationID = (status, none))
    (hs : status.State = OperationStateFailed)
    (hm : m = status.Message.getD "") :
    (s.Run rt operation).result
      = s.operationManager.OperationFailed operation
          ("provisioner client returns failed status: " ++ m) none ∧
    m.data <:+: ("provisioner client returns failed status: " ++ m).data ∧
    (s.Run rt operation).calls = [Call.RuntimeOperationStatus
        operation.ProvisioningParameters.ErsContext.GlobalAccountID
        operation.ProvisionerOperationID,
      Call.OperationFailed operation ("provisioner client returns failed status: " ++ m) none] ∧
    (s.Run rt operation).result.operation.State = Failed ∧
    (s.Run rt operation).result.operation.LastError ≠ LastError.empty ∧
    (s.Run rt operation).result.delay = 0 ∧
    (s.Run rt operation).result.err ≠ none := by
  have ht2 : ¬ (s.provisioningTimeout < rt.Since operation.UpdatedAt) := not_lt.mpr ht
  have h1 : OperationStateFailed ≠ OperationStateSucceeded := by decide
  have h2 : OperationStateFailed ≠ OperationStateInProgress := by decide
  have h3 : OperationStateFailed ≠ OperationStatePending := by decide
  have hmsg : (match status.Message with | some m => m | none => "") = m := by
    rw [hm]; cases status.Message <;> rfl
  have hres : (s.Run rt operation).result
      = s.operationManager.OperationFailed operation
          ("provisioner client returns failed status: " ++ m) none := by
    simp [CheckStep.Run, CheckStep.checkRuntimeStatus, CheckStep.fail, hr, hp, ht2, hc, hs,
      h1, h2, h3, hmsg]
  have hcalls : (s.Run rt operation).calls = [Call.RuntimeOperationStatus
        operation.ProvisioningParameters.ErsContext.GlobalAccountID
        operation.ProvisionerOperationID,
      Call.OperationFailed operation ("provisioner client returns failed status: " ++ m) none] := by
    simp [CheckStep.Run, CheckStep.checkRuntimeStatus, CheckStep.fail, hr, hp, ht2, hc, hs,
      h1, h2, h3, hmsg]
  obtain ⟨hstate, hlast, hdelay, herr⟩ := hom operation
    ("provisioner client returns failed status: " ++ m) none
  refine ⟨hres, ?_, hcalls, ?_, ?_, ?_, ?_⟩
  · rw [String.data_append]
    exact List.suffix_append _ _ |>.isInfix
  · rw [hres]; exact hstate
  · rw [hres]; exact hlast (append_ne_empty _ m (by decide))
  · rw [hres]; exact hdelay
  · rw [hres]; exact herr

/-- C5 at a concrete input: `sampleOperation` one second after it was persisted and a
provisioner that reports `Failed` with the message "boom". -/
theorem CheckStep.Run_failed_witness :
    sampleOperation.RuntimeID ≠ "" ∧ sampleOperation.ProvisionerOperationID ≠ "" ∧
    ((stepAnswering { State := OperationStateFailed, Message := some "boom" } none).Run
      sampleRuntime sampleOperation).result
      = specOperationManager.OperationFailed sampleOperation
          ("provisioner client returns failed status: " ++ "boom") none :=
  ⟨by decide, by decide,
    (CheckStep.Run_failed
      (stepAnswering { State := OperationStateFailed, Message := some "boom" } none)
      sampleRuntime sampleOperation { State := OperationStateFailed, Message := some "boom" }
      "boom" specOperationManager_contract (by decide) (by decide) (by decide) rfl rfl rfl).1⟩

/-- C6, where the claim fails: `sampleOperation` passes the entry checks and the
provisioner's status call fails with the error "connection refused", yet the error
`CheckStep.Run` returns is nil, the delay is one minute and the operation manager is not
called. -/
theorem CheckStep.Run_client_error_counterexample :
    sampleOperation.RuntimeID ≠ "" ∧ sampleOperation.ProvisionerOperationID ≠ "" ∧
    sampleRuntime.Since sampleOperation.UpdatedAt
      ≤ (stepAnswering { State := "", Message := none }
          (some { message := "connection refused" })).provisioningTimeout ∧
    ((stepAnswering { State := "", Message := none }
        (some { message := "connection refused" })).provisionerClient.RuntimeOperationStatus
      sampleOperation.ProvisioningParameters.ErsContext.GlobalAccountID
      sampleOperation.ProvisionerOperationID).2 = some { message := "connection refused" } ∧
    ((stepAnswering { State := "", Message := none }
        (some { message := "connection refused" })).Run sampleRuntime sampleOperation).result.err
      = none ∧
    ((stepAnswering { State := "", Message := none }
        (some { message := "connection refused" })).Run sampleRuntime sampleOperation).result.delay
      = 60000000000 ∧
    ((stepAnswering { State := "", Message := none }
        (some { message := "connection refused" })).Run sampleRuntime sampleOperation).calls
      = [Call.RuntimeOperationStatus "ga-1" "prov-op-1"] := by
  decide

/-- C6 as the code has it: for an operation that passes the entry checks, when the
provisioner's status call fails with an error, `CheckStep.Run` returns the operation it was
given, a delay of one minute and a nil error (the same step is run again later); its only
call is the status call, so the operation manager is not invoked. -/
theorem CheckStep.Run_client_error (s : CheckStep) (rt : Runtime) (operation : Operation)
    (status : OperationStatus) (e : GoError)
    (hr : operation.RuntimeID ≠ "") (hp : operation.ProvisionerOperationID ≠ "")
    (ht : rt.Since operation.UpdatedAt ≤ s.provisioningTimeout)
    (hc : s.provisionerClient.RuntimeOperationStatus
        operation.ProvisioningParameters.ErsContext.GlobalAccountID
        operation.ProvisionerOperationID = (status, some e)) :
    (s.Run rt operation).result
      = { operation := operation, delay := 60 * 1000000000, err := none } ∧
    (s.Run rt operation).calls = [Call.RuntimeOperationStatus
      operation.ProvisioningParameters.ErsContext.GlobalAccountID
      operation.ProvisionerOperationID] ∧
    (∀ op description err,
      Call.OperationFailed op description err ∉ (s.Run rt operation).calls) := by
  have ht2 : ¬ (s.provisioningTimeout < rt.Since operation.UpdatedAt) := not_lt.mpr ht
  simp [CheckStep.Run, CheckStep.checkRuntimeStatus, hr, hp, ht2, hc]
  rfl

/-- C6 as the code has it, at a concrete input: `sampleOperation` and a provisioner whose
status call fails with "connection refused". -/
theorem CheckStep.Run_client_error_witness :
    sampleOperation.RuntimeID ≠ "" ∧ sampleOperation.ProvisionerOperationID ≠ "" ∧
    ((stepAnswering { State := "", Message := none }
        (some { message := "connection refused" })).Run sampleRuntime sampleOperation).result
      = { operation := sampleOperation, delay := 60000000000, err := none } :=
  ⟨by decide, by decide,
    (CheckStep.Run_client_error
      (stepAnswering { State := "", Message := none } (some { message := "connection refused" }))
      sampleRuntime sampleOperation { State := "", Message := none }
      { message := "connection refused" } (by decide) (by decide) (by decide) rfl).1⟩

/-! ## The metrics collector -/

/-- C7: every handler of `OperationResultCollector`, given a payload that is not of the
variant it expects, returns a non-nil error and leaves the collector, hence every series
of every gauge, as it was. -/
theorem OperationResultCollector.unexpected_payload (c : OperationResultCollector)
    (ev : Event) :
    ((∀ e, ev ≠ Event.upgradeKymaStepProcessed e) →
      (c.OnUpgradeKymaStepProcessed ev).1 ≠ none ∧ (c.OnUpgradeKymaStepProcessed ev).2 = c) ∧
    ((∀ e, ev ≠ Event.upgradeClusterStepProcessed e) →
      (c.OnUpgradeClusterStepProcessed ev).1 ≠ none ∧
      (c.OnUpgradeClusterStepProcessed ev).2 = c) ∧
    ((∀ e, ev ≠ Event.operationStepProcessed e) →
      (c.OnOperationStepProcessed ev).1 ≠ none ∧ (c.OnOperationStepProcessed ev).2 = c) ∧
    ((∀ e, ev ≠ Event.provisioningStepProcessed e) →
      (c.OnProvisioningStepProcessed ev).1 ≠ none ∧
      (c.OnProvisioningStepProcessed ev).2 = c) ∧
    ((∀ e, ev ≠ Event.deprovisioningStepProcessed e) →
      (c.OnDeprovisioningStepProcessed ev).1 ≠ none ∧
      (c.OnDeprovisioningStepProcessed ev).2 = c) ∧
    ((∀ e, ev ≠ Event.provisioningSucceeded e) →
      (c.OnProvisioningSucceeded ev).1 ≠ none ∧ (c.OnProvisioningSucceeded ev).2 = c) ∧
    ((∀ e, ev ≠ Event.operationSucceeded e) →
      (c.OnOperationSucceeded ev).1 ≠ none ∧ (c.OnOperationSucceeded ev).2 = c) := by
  refine ⟨?_, ?_, ?_, ?_, ?_, ?_, ?_⟩ <;> intro h <;> cases ev
  all_goals first
    | exact absurd rfl (h _)
    | exact ⟨by simp [OperationResultCollector.OnUpgradeKymaStepProcessed,
          OperationResultCollector.OnUpgradeClusterStepProcessed,
          OperationResultCollector.OnOperationStepProcessed,
          OperationResultCollector.OnProvisioningStepProcessed,
          OperationResultCollector.OnDeprovisioningStepProcessed,
          OperationResultCollector.OnProvisioningSucceeded,
          OperationResultCollector.OnOperationSucceeded], rfl⟩

/-- C7 at concrete inputs: a fresh collector handed a succeeded event by the handler of
provisioning steps, and a value of a foreign type by the handler of succeeded operations. -/
theorem OperationResultCollector.unexpected_payload_witness :
    (NewOperationResultCollector.OnProvisioningStepProcessed
      (Event.operationSucceeded { Operation := sampleOperation })).1 ≠ none ∧
    (NewOperationResultCollector.OnOperationSucceeded (Event.other "nil")).1 ≠ none :=
  ⟨((OperationResultCollector.unexpected_payload NewOperationResultCollector
      (Event.operationSucceeded { Operation := sampleOperation })).2.2.2.1
        (fun _ h => Event.noConfusion h)).1,
    ((OperationResultCollector.unexpected_payload NewOperationResultCollector
      (Event.other "nil")).2.2.2.2.2.2 (fun _ h => Event.noConfusion h)).1⟩

/-- C8: for every `ProvisioningStepProcessed` event, `OnProvisioningStepProcessed` returns
nil and sets the series of the provisioning gauge labelled (operation ID, InstanceID,
GlobalAccountID, PlanID, component of LastError, reason of LastError) to
`mapResult(operation.State)`; every other series of that gauge and the three other gauges
are unchanged.  Likewise for `DeprovisioningStepProcessed` events,
`OnDeprovisioningStepProcessed` and the deprovisioning gauge. -/
theorem OperationResultCollector.step_processed_effect (c : OperationResultCollector)
    (p : ProvisioningStepProcessed) (d : DeprovisioningStepProcessed) :
    ((c.OnProvisioningStepProcessed (Event.provisioningStepProcessed p)).1 = none ∧
      (c.OnProvisioningStepProcessed (Event.provisioningStepProcessed p)).2.provisioningResultGauge
          [p.Operation.Operation.ID, p.Operation.Operation.InstanceID,
            p.Operation.Operation.ProvisioningParameters.ErsContext.GlobalAccountID,
            p.Operation.Operation.ProvisioningParameters.PlanID,
            p.Operation.Operation.LastError.Component, p.Operation.Operation.LastError.Reason]
        = some (c.mapResult p.Operation.Operation.State) ∧
      (∀ lvs, lvs ≠ [p.Operation.Operation.ID, p.Operation.Operation.InstanceID,
            p.Operation.Operation.ProvisioningParameters.ErsContext.GlobalAccountID,
            p.Operation.Operation.ProvisioningParameters.PlanID,
            p.Operation.Operation.LastError.Component, p.Operation.Operation.LastError.Reason] →
        (c.OnProvisioningStepProcessed
            (Event.provisioningStepProcessed p)).2.provisioningResultGauge lvs
          = c.provisioningResultGauge lvs) ∧
      (c.OnProvisioningStepProcessed
          (Event.provisioningStepProcessed p)).2.deprovisioningResultGauge
        = c.deprovisioningResultGauge ∧
      (c.OnProvisioningStepProcessed (Event.provisioningStepProcessed p)).2.upgradeKymaResultGauge
        = c.upgradeKymaResultGauge ∧
      (c.OnProvisioningStepProcessed
          (Event.provisioningStepProcessed p)).2.upgradeClusterResultGauge
        = c.upgradeClusterResultGauge) ∧
    ((c.OnDeprovisioningStepProcessed (Event.deprovisioningStepProcessed d)).1 = none ∧
      (c.OnDeprovisioningStepProcessed
          (Event.deprovisioningStepProcessed d)).2.deprovisioningResultGauge
          [d.Operation.Operation.ID, d.Operation.Operation.InstanceID,
            d.Operation.Operation.ProvisioningParameters.ErsContext.GlobalAccountID,
            d.Operation.Operation.ProvisioningParameters.PlanID,
            d.Operation.Operation.LastError.Component, d.Operation.Operation.LastError.Reason]
        = some (c.mapResult d.Operation.Operation.State) ∧
      (∀ lvs, lvs ≠ [d.Operation.Operation.ID, d.Operation.Operation.InstanceID,
            d.Operation.Operation.ProvisioningParameters.ErsContext.GlobalAccountID,
            d.Operation.Operation.ProvisioningParameters.PlanID,
            d.Operation.Operation.LastError.Component, d.Operation.Operation.LastError.Reason] →
        (c.OnDeprovisioningStepProcessed
            (Event.deprovisioningStepProcessed d)).2.deprovisioningResultGauge lvs
          = c.deprovisioningResultGauge lvs) ∧
      (c.OnDeprovisioningStepProcessed
          (Event.deprovisioningStepProcessed d)).2.provisioningResultGauge
        = c.provisioningResultGauge ∧
      (c.OnDeprovisioningStepProcessed
          (Event.deprovisioningStepProcessed d)).2.upgradeKymaResultGauge
        = c.upgradeKymaResultGauge ∧
      (c.OnDeprovisioningStepProcessed
          (Event.deprovisioningStepProcessed d)).2.upgradeClusterResultGauge
        = c.upgradeClusterResultGauge) := by
  refine ⟨⟨rfl, ?_, ?_, rfl, rfl, rfl⟩, ⟨rfl, ?_, ?_, rfl, rfl, rfl⟩⟩
  · simp [OperationResultCollector.OnProvisioningStepProcessed, GaugeVec.WithLabelValuesSet]
  · intro lvs h
    simp [OperationResultCollector.OnProvisioningStepProcessed, GaugeVec.WithLabelValuesSet, h]
  · simp [OperationResultCollector.OnDeprovisioningStepProcessed, GaugeVec.WithLabelValuesSet]
  · intro lvs h
    simp [OperationResultCollector.OnDeprovisioningStepProcessed, GaugeVec.WithLabelValuesSet, h]

/-- C9: `mapResult` follows the value table on every state: Failed is 0, Succeeded 1,
InProgress 2, Pending 3, Canceling 4, Canceled 5, Retrying 6 and every other state string
7.  So two different states of the operation state machine never get the same gauge
value, and no state of the state machine gets the value 7 ("unimplemented"). -/
theorem OperationResultCollector.mapResult_table (c : OperationResultCollector) :
    c.mapResult Failed = 0 ∧ c.mapResult Succeeded = 1 ∧ c.mapResult InProgress = 2 ∧
    c.mapResult Pending = 3 ∧ c.mapResult Canceling = 4 ∧ c.mapResult Canceled = 5 ∧
    c.mapResult Retrying = 6 ∧
    (∀ state, state ∉ stateMachineStates → c.mapResult state = 7) ∧
    (∀ s ∈ stateMachineStates, ∀ t ∈ stateMachineStates,
      c.mapResult s = c.mapResult t → s = t) ∧
    (∀ s ∈ stateMachineStates, c.mapResult s ≠ 7) := by
  have hF : c.mapResult Failed = 0 := rfl
  have hS : c.mapResult Succeeded = 1 := rfl
  have hI : c.mapResult InProgress = 2 := rfl
  have hP : c.mapResult Pending = 3 := rfl
  have hCg : c.mapResult Canceling = 4 := rfl
  have hCd : c.mapResult Canceled = 5 := rfl
  have hR : c.mapResult Retrying = 6 := rfl
  refine ⟨hF, hS, hI, hP, hCg, hCd, hR, ?_, ?_, ?_⟩
  · intro state h
    simp only [stateMachineStates, List.mem_cons, List.mem_singleton, List.not_mem_nil,
      or_false, not_or] at h
    obtain ⟨h1, h2, h3, h4, h5, h6, h7⟩ := h
    simp [OperationResultCollector.mapResult, h1, h2, h3, h4, h5, h6, h7, resultUnimplemented]
  · intro s hs t ht
    simp only [stateMachineStates, List.mem_cons, List.mem_singleton, List.not_mem_nil,
      or_false] at hs ht
    rcases hs with rfl | rfl | rfl | rfl | rfl | rfl | rfl <;>
      rcases ht with rfl | rfl | rfl | rfl | rfl | rfl | rfl <;> intro h <;>
      first
        | rfl
        | (simp only [hF, hS, hI, hP, hCg, hCd, hR] at h; exact absurd h (by decide))
  · intro s hs
    simp only [stateMachineStates, List.mem_cons, List.mem_singleton, List.not_mem_nil,
      or_false] at hs
    rcases hs with rfl | rfl | rfl | rfl | rfl | rfl | rfl
    · rw [hP]; decide
    · rw [hI]; decide
    · rw [hS]; decide
    · rw [hF]; decide
    · rw [hCg]; decide
    · rw [hCd]; decide
    · rw [hR]; decide

/-- C12: `OnOperationSucceeded` returns nil exactly when the payload is an
`OperationSucceeded` event whose operation has the type Provision.  For such an event the
series of the provisioning gauge labelled (operation ID, InstanceID, GlobalAccountID,
PlanID, "", "") is set to 1 (Succeeded) and every other series and every other gauge is
unchanged.  For an `OperationSucceeded` event of any other operation type (Deprovision,
Update, UpgradeKyma, UpgradeCluster) it returns an error and the collector is unchanged. -/
theorem OperationResultCollector.OnOperationSucceeded_effect (c : OperationResultCollector) :
    (∀ ev, (c.OnOperationSucceeded ev).1 = none ↔
      ∃ e, ev = Event.operationSucceeded e ∧ e.Operation.Type_ = OperationType.Provision) ∧
    (∀ e : OperationSucceeded, e.Operation.Type_ = OperationType.Provision →
      (c.OnOperationSucceeded (Event.operationSucceeded e)).1 = none ∧
      (c.OnOperationSucceeded (Event.operationSucceeded e)).2.provisioningResultGauge
          [e.Operation.ID, e.Operation.InstanceID,
            e.Operation.ProvisioningParameters.ErsContext.GlobalAccountID,
            e.Operation.ProvisioningParameters.PlanID, "", ""] = some 1 ∧
      (∀ lvs, lvs ≠ [e.Operation.ID, e.Operation.InstanceID,
            e.Operation.ProvisioningParameters.ErsContext.GlobalAccountID,
            e.Operation.ProvisioningParameters.PlanID, "", ""] →
        (c.OnOperationSucceeded (Event.operationSucceeded e)).2.provisioningResultGauge lvs
          = c.provisioningResultGauge lvs) ∧
      (c.OnOperationSucceeded (Event.operationSucceeded e)).2.deprovisioningResultGauge
        = c.deprovisioningResultGauge ∧
      (c.OnOperationSucceeded (Event.operationSucceeded e)).2.upgradeKymaResultGauge
        = c.upgradeKymaResultGauge ∧
      (c.OnOperationSucceeded (Event.operationSucceeded e)).2.upgradeClusterResultGauge
        = c.upgradeClusterResultGauge) ∧
    (∀ e : OperationSucceeded, e.Operation.Type_ ≠ OperationType.Provision →
      (c.OnOperationSucceeded (Event.operationSucceeded e)).1 ≠ none ∧
      (c.OnOperationSucceeded (Event.operationSucceeded e)).2 = c) := by
  refine ⟨?_, ?_, ?_⟩
  · intro ev
    constructor
    · intro h
      cases ev with
      | operationSucceeded e =>
        by_cases ht : e.Operation.Type_ = OperationType.Provision
        · exact ⟨e, rfl, ht⟩
        · simp [OperationResultCollector.OnOperationSucceeded, ht] at h
      | _ => simp [OperationResultCollector.OnOperationSucceeded] at h
    · rintro ⟨e, rfl, ht⟩
      simp [OperationResultCollector.OnOperationSucceeded,
        OperationResultCollector.OnProvisioningSucceeded, ht]
  · intro e ht
    refine ⟨?_, ?_, ?_, ?_, ?_, ?_⟩
    · simp [OperationResultCollector.OnOperationSucceeded,
        OperationResultCollector.OnProvisioningSucceeded, ht]
    · simp [OperationResultCollector.OnOperationSucceeded,
        OperationResultCollector.OnProvisioningSucceeded, GaugeVec.WithLabelValuesSet, ht,
        resultSucceeded]
    · intro lvs hl
      simp [OperationResultCollector.OnOperationSucceeded,
        OperationResultCollector.OnProvisioningSucceeded, GaugeVec.WithLabelValuesSet, ht, hl]
    · simp [OperationResultCollector.OnOperationSucceeded,
        OperationResultCollector.OnProvisioningSucceeded, ht]
    · simp [OperationResultCollector.OnOperationSucceeded,
        OperationResultCollector.OnProvisioningSucceeded, ht]
    · simp [OperationResultCollector.OnOperationSucceeded,
        OperationResultCollector.OnProvisioningSucceeded, ht]
  · intro e ht
    simp [OperationResultCollector.OnOperationSucceeded, ht]

/-- C12 at concrete inputs: a fresh collector handed the success of a provisioning
operation and the success of `sampleOperation`, an update. -/
theorem OperationResultCollector.OnOperationSucceeded_effect_witness :
    (NewOperationResultCollector.OnOperationSucceeded (Event.operationSucceeded
      { Operation := { sampleOperation with Type_ := OperationType.Provision } })).1 = none ∧
    (NewOperationResultCollector.OnOperationSucceeded (Event.operationSucceeded
      { Operation := { sampleOperation with Type_ := OperationType.Provision }
        })).2.provisioningResultGauge ["op-1", "inst-1", "ga-1", "plan-1", "", ""] = some 1 ∧
    (NewOperationResultCollector.OnOperationSucceeded (Event.operationSucceeded
      { Operation := sampleOperation })).1 ≠ none :=
  ⟨((OperationResultCollector.OnOperationSucceeded_effect NewOperationResultCollector).2.1
      { Operation := { sampleOperation with Type_ := OperationType.Provision } } rfl).1,
    ((OperationResultCollector.OnOperationSucceeded_effect NewOperationResultCollector).2.1
      { Operation := { sampleOperation with Type_ := OperationType.Provision } } rfl).2.1,
    ((OperationResultCollector.OnOperationSucceeded_effect NewOperationResultCollector).2.2
      { Operation := sampleOperation } (by decide)).1⟩

/-- C13: for every `OperationStepProcessed` event `e`: if the operation's type is
Provision, `OnOperationStepProcessed` returns the error and leaves the collector that
`OnProvisioningStepProcessed` does on the `ProvisioningStepProcessed` event wrapping the
same `StepProcessed` and `Operation`, which is nil and the provisioning series of the
operation set to `mapResult(State)`; if the type is Deprovision, those of
`OnDeprovisioningStepProcessed` on the corresponding `DeprovisioningStepProcessed` event;
for every other type (Update, UpgradeKyma, UpgradeCluster) it returns an error and leaves
the collector unchanged. -/
theorem OperationResultCollector.OnOperationStepProcessed_dispatch
    (c : OperationResultCollector) (e : OperationStepProcessed) :
    (e.Operation.Type_ = OperationType.Provision →
      c.OnOperationStepProcessed (Event.operationStepProcessed e)
        = c.OnProvisioningStepProcessed (Event.provisioningStepProcessed
            { StepProcessed := e.StepProcessed, Operation := { Operation := e.Operation } }) ∧
      (c.OnOperationStepProcessed (Event.operationStepProcessed e)).1 = none ∧
      (c.OnOperationStepProcessed (Event.operationStepProcessed e)).2.provisioningResultGauge
          [e.Operation.ID, e.Operation.InstanceID,
            e.Operation.ProvisioningParameters.ErsContext.GlobalAccountID,
            e.Operation.ProvisioningParameters.PlanID,
            e.Operation.LastError.Component, e.Operation.LastError.Reason]
        = some (c.mapResult e.Operation.State) ∧
      (c.OnOperationStepProcessed (Event.operationStepProcessed e)).2.deprovisioningResultGauge
        = c.deprovisioningResultGauge) ∧
    (e.Operation.Type_ = OperationType.Deprovision →
      c.OnOperationStepProcessed (Event.operationStepProcessed e)
        = c.OnDeprovisioningStepProcessed (Event.deprovisioningStepProcessed
            { StepProcessed := e.StepProcessed, Operation := { Operation := e.Operation } }) ∧
      (c.OnOperationStepProcessed (Event.operationStepProcessed e)).1 = none ∧
      (c.OnOperationStepProcessed (Event.operationStepProcessed e)).2.deprovisioningResultGauge
          [e.Operation.ID, e.Operation.InstanceID,
            e.Operation.ProvisioningParameters.ErsContext.GlobalAccountID,
            e.Operation.ProvisioningParameters.PlanID,
            e.Operation.LastError.Component, e.Operation.LastError.Reason]
        = some (c.mapResult e.Operation.State) ∧
      (c.OnOperationStepProcessed (Event.operationStepProcessed e)).2.provisioningResultGauge
        = c.provisioningResultGauge) ∧
    (e.Operation.Type_ ≠ OperationType.Provision →
      e.Operation.Type_ ≠ OperationType.Deprovision →
      (c.OnOperationStepProcessed (Event.operationStepProcessed e)).1 ≠ none ∧
      (c.OnOperationStepProcessed (Event.operationStepProcessed e)).2 = c) ∧
    (e.Operation.Type_ ≠ OperationType.Provision →
      e.Operation.Type_ ≠ OperationType.Deprovision →
      e.Operation.Type_ = OperationType.Update ∨
      e.Operation.Type_ = OperationType.UpgradeKyma ∨
      e.Operation.Type_ = OperationType.UpgradeCluster) := by
  refine ⟨?_, ?_, ?_, ?_⟩
  · intro ht
    have hd : c.OnOperationStepProcessed (Event.operationStepProcessed e)
        = c.OnProvisioningStepProcessed (Event.provisioningStepProcessed
            { StepProcessed := e.StepProcessed, Operation := { Operation := e.Operation } }) := by
      simp [OperationResultCollector.OnOperationStepProcessed, ht]
    refine ⟨hd, ?_, ?_, ?_⟩
    · rw [hd]; rfl
    · rw [hd]
      simp [OperationResultCollector.OnProvisioningStepProcessed, GaugeVec.WithLabelValuesSet]
    · rw [hd]; rfl
  · intro ht
    have hd : c.OnOperationStepProcessed (Event.operationStepProcessed e)
        = c.OnDeprovisioningStepProcessed (Event.deprovisioningStepProcessed
            { StepProcessed := e.StepProcessed, Operation := { Operation := e.Operation } }) := by
      simp [OperationResultCollector.OnOperationStepProcessed, ht]
    refine ⟨hd, ?_, ?_, ?_⟩
    · rw [hd]; rfl
    · rw [hd]
      simp [OperationResultCollector.OnDeprovisioningStepProcessed,
        GaugeVec.WithLabelValuesSet]
    · rw [hd]; rfl
  · intro hp hd
    cases ht : e.Operation.Type_ with
    | Provision => exact absurd ht hp
    | Deprovision => exact absurd ht hd
    | Update => simp [OperationResultCollector.OnOperationStepProcessed, ht]
    | UpgradeKyma => simp [OperationResultCollector.OnOperationStepProcessed, ht]
    | UpgradeCluster => simp [OperationResultCollector.OnOperationStepProcessed, ht]
  · intro hp hd
    cases ht : e.Operation.Type_ with
    | Provision => exact absurd ht hp
    | Deprovision => exact absurd ht hd
    | Update => simp
    | UpgradeKyma => simp
    | UpgradeCluster => simp

/-- C13 at concrete inputs: a fresh collector handed a processed step of a deprovisioning
operation in progress, and a processed step of `sampleOperation`, an update. -/
theorem OperationResultCollector.OnOperationStepProcessed_dispatch_witness :
    (NewOperationResultCollector.OnOperationStepProcessed (Event.operationStepProcessed
      { StepProcessed := { StepName := "Check_Runtime" }
        Operation := { sampleOperation with Type_ := OperationType.Deprovision }
        })).2.deprovisioningResultGauge ["op-1", "inst-1", "ga-1", "plan-1", "", ""]
      = some 2 ∧
    (NewOperationResultCollector.OnOperationStepProcessed (Event.operationStepProcessed
      { StepProcessed := { StepName := "Check_Runtime" }, Operation := sampleOperation })).1
      ≠ none :=
  ⟨((OperationResultCollector.OnOperationStepProcessed_dispatch NewOperationResultCollector
      { StepProcessed := { StepName := "Check_Runtime" }
        Operation := { sampleOperation with Type_ := OperationType.Deprovision } }).2.1
      rfl).2.2.1,
    ((OperationResultCollector.OnOperationStepProcessed_dispatch NewOperationResultCollector
      { StepProcessed := { StepName := "Check_Runtime" }, Operation := sampleOperation }).2.2.1
      (by decide) (by decide)).1⟩

end KEB

namespace Provisioner

/-! ## The uninstall stage -/

/-- C10: for every cluster without a kubeconfig (`Kubeconfig` is nil) and every operation,
`TriggerKymaUninstallStep.Run` returns no error and a stage result whose `Stage` is the
configured next stage and whose `Delay` is 0, and it calls neither the Gardener client nor
the installation service. -/
theorem TriggerKymaUninstallStep.Run_without_kubeconfig (s : TriggerKymaUninstallStep)
    (cluster : Cluster) (operation : Operation) (h : cluster.Kubeconfig = none) :
    (s.Run cluster operation).err = none ∧
    (s.Run cluster operation).result.Stage = s.nextStep ∧
    (s.Run cluster operation).result.Delay = 0 ∧
    (s.Run cluster operation).calls = [] := by
  simp [TriggerKymaUninstallStep.Run, h]

/-- C10 at the input of the test case "should go to the next step when kubeconfig is
empty". -/
theorem TriggerKymaUninstallStep.Run_without_kubeconfig_witness :
    clusterWithoutKubeconfig.Kubeconfig = none ∧
    (sampleStep.Run clusterWithoutKubeconfig { ID := "" }).err = none ∧
    (sampleStep.Run clusterWithoutKubeconfig { ID := "" }).result.Stage = "NextStage" ∧
    (sampleStep.Run clusterWithoutKubeconfig { ID := "" }).result.Delay = 0 ∧
    (sampleStep.Run clusterWithoutKubeconfig { ID := "" }).calls = [] :=
  ⟨rfl, TriggerKymaUninstallStep.Run_without_kubeconfig sampleStep clusterWithoutKubeconfig
    { ID := "" } rfl⟩

/-- C11: for every cluster with a kubeconfig, in `TriggerKymaUninstallStep.Run`: when the
Gardener client's `Get` fails, the run returns an error that is not a
`NonRecoverableError`, has the component `ErrGardenerClient` and contains the message of
the failure; when the shoot is fetched, is not hibernated and the cluster's kubeconfig
fails to parse, the run returns an error in which a `NonRecoverableError` is found through
the unwrap chain, with the component `ErrClusterK8SClient`; the installation service is
called in neither case. -/
theorem TriggerKymaUninstallStep.Run_error_classes (s : TriggerKymaUninstallStep)
    (cluster : Cluster) (operation : Operation) (kubeconfig : String)
    (hk : cluster.Kubeconfig = some kubeconfig) :
    (∀ msg, s.gardenerClientGet cluster.ClusterConfig.Name = .error msg →
      ∃ e, (s.Run cluster operation).err = some e ∧
        e.isNonRecoverable = false ∧
        e.Component = ErrComponent.ErrGardenerClient ∧
        msg.data <:+: e.Error.data ∧
        (s.Run cluster operation).calls = [Call.GardenerGet cluster.ClusterConfig.Name]) ∧
    (∀ shoot msg, s.gardenerClientGet cluster.ClusterConfig.Name = .ok shoot →
      shoot.IsHibernated = false →
      s.parseToK8sConfig kubeconfig = .error msg →
      ∃ e, (s.Run cluster operation).err = some e ∧
        e.isNonRecoverable = true ∧
        e.Component = ErrComponent.ErrClusterK8SClient ∧
        (s.Run cluster operation).calls = [Call.GardenerGet cluster.ClusterConfig.Name]) := by
  constructor
  · intro msg hget
    refine ⟨StageError.appError ErrComponent.ErrGardenerClient ErrReason.empty msg,
      ?_, rfl, rfl, List.infix_refl _, ?_⟩ <;>
      simp [TriggerKymaUninstallStep.Run, hk, hget]
  · intro shoot msg hget hhib hparse
    refine ⟨StageError.NonRecoverableError
        (StageError.appError ErrComponent.ErrClusterK8SClient ErrReason.empty
          ("error: failed to create kubernetes config from raw: " ++ msg)),
      ?_, rfl, rfl, ?_⟩ <;>
      simp [TriggerKymaUninstallStep.Run, hk, hget, hhib, hparse]

/-- C11 at the inputs of the test cases "should return error if failed to get shoot" and
"should return error if failed to parse kubeconfig". -/
theorem TriggerKymaUninstallStep.Run_error_classes_witness :
    clusterWithKubeconfig.Kubeconfig = some "apiVersion: v1" ∧
    clusterWithInvalidKubeconfig.Kubeconfig = some "invalid" ∧
    (∃ e, (stepFailingGet.Run clusterWithKubeconfig { ID := "" }).err = some e ∧
      e.isNonRecoverable = false ∧
      e.Component = ErrComponent.ErrGardenerClient ∧
      "some error".data <:+: e.Error.data ∧
      (stepFailingGet.Run clusterWithKubeconfig { ID := "" }).calls
        = [Call.GardenerGet clusterWithKubeconfig.ClusterConfig.Name]) ∧
    (∃ e, (sampleStep.Run clusterWithInvalidKubeconfig { ID := "" }).err = some e ∧
      e.isNonRecoverable = true ∧
      e.Component = ErrComponent.ErrClusterK8SClient ∧
      (sampleStep.Run clusterWithInvalidKubeconfig { ID := "" }).calls
        = [Call.GardenerGet clusterWithInvalidKubeconfig.ClusterConfig.Name]) :=
  ⟨rfl, rfl,
    (TriggerKymaUninstallStep.Run_error_classes stepFailingGet clusterWithKubeconfig
      { ID := "" } "apiVersion: v1" rfl).1 "some error" rfl,
    (TriggerKymaUninstallStep.Run_error_classes sampleStep clusterWithInvalidKubeconfig
      { ID := "" } "invalid" rfl).2 { Name := "my cluster", IsHibernated := false }
      "error constructing kubeconfig from raw config: " rfl rfl rfl⟩

end Provisioner
